import Mathlib

/-!
# Verification of `sciter/scplatform.py`

A shallow embedding of the platform-dependent window code of pysciter:
the Win32 window variant (`WindowsWindow`), the macOS variant
(`OsxWindow`) together with its Objective-C bridge (`ObjC.fromNSString` /
`ObjC.toNSString`), and the Windows message-loop / delegate trampoline.

Every native call the Python code performs is recorded as an element of an
effect trace (`WinCall` for Win32 API calls, `OsxCall` for `objc_msgSend`
invocations); methods are functions from the window value and their
arguments to the pair (emitted trace, returned value).  OS-side behaviour
that the claims depend on (window-text storage, `GetMessageW` on a message
queue, CoreFoundation string conversion) is modelled by explicit state
transition functions next to the calls that trigger it.
-/

namespace Scplatform

/-- `sciter.sctypes.RECT`: a Win32-style rectangle of four integer fields. -/
structure RECT where
  left : Int
  top : Int
  right : Int
  bottom : Int
deriving DecidableEq, Repr

/-- `sciter.sctypes.RECT()` with no arguments: the default, all-zero rectangle. -/
def RECT.zero : RECT := ⟨0, 0, 0, 0⟩

/-- A NUL character, as it appears embedded in a Python `str`. -/
def nulChar : Char := Char.ofNat 0

/-- The characters of a text up to (excluding) the first NUL: what a
C-string consumer of the text observes. -/
def truncAtNul (s : List Char) : List Char := s.takeWhile (fun c => c ≠ nulChar)

/-! ## Win32 effect model -/

/-- One native Win32 API call performed by `WindowsWindow`.  Window text is
carried as a `List Char` (the UTF-16 code points of the Python `str`;
pysciter only ever passes well-formed text). -/
inductive WinCall where
  /-- `ctypes.windll.user32.ShowWindow(hwnd, cmd)` -/
  | showWindow (hwnd : Nat) (cmd : Nat)
  /-- `ctypes.windll.user32.PostMessageW(hwnd, msg, wparam, lparam)` -/
  | postMessageW (hwnd : Nat) (msg : Nat) (wparam : Nat) (lparam : Nat)
  /-- `ctypes.windll.user32.SetWindowTextW(hwnd, text)` -/
  | setWindowTextW (hwnd : Nat) (text : List Char)
  /-- `ctypes.windll.user32.PostQuitMessage(exitCode)` -/
  | postQuitMessage (exitCode : Nat)
deriving DecidableEq, Repr

/-- The Win32 window object: it holds the native handle `self.hwnd`. -/
structure WindowsWindow where
  hwnd : Nat
deriving DecidableEq, Repr

/-- `WindowsWindow.collapse(self, hide=False)`:
`ShowWindow(self.hwnd, 0 if hide else 6)` (SW_HIDE or SW_MINIMIZE), then
`return self`. -/
def WindowsWindow.collapse (w : WindowsWindow) (hide : Bool) :
    List WinCall × WindowsWindow :=
  ([.showWindow w.hwnd (if hide then 0 else 6)], w)

/-- The default value of the `hide` parameter in `collapse(self, hide=False)`. -/
def WindowsWindow.collapseDefaultHide : Bool := false

/-- `WindowsWindow.expand(self, maximize=False)`:
`sw = 3 if maximize else 1` (SW_MAXIMIZE or SW_NORMAL), one
`ShowWindow(self.hwnd, sw)` call, then `return self`. -/
def WindowsWindow.expand (w : WindowsWindow) (maximize : Bool) :
    List WinCall × WindowsWindow :=
  ([.showWindow w.hwnd (if maximize then 3 else 1)], w)

/-- `WindowsWindow.dismiss(self)`:
`PostMessageW(self.hwnd, 0x0010, 0, 0)` (WM_CLOSE), then `return self`. -/
def WindowsWindow.dismiss (w : WindowsWindow) : List WinCall × WindowsWindow :=
  ([.postMessageW w.hwnd 0x0010 0 0], w)

/-- `WindowsWindow.set_title(self, title)`:
`SetWindowTextW(self.hwnd, title)`, then `return self`. -/
def WindowsWindow.set_title (w : WindowsWindow) (title : List Char) :
    List WinCall × WindowsWindow :=
  ([.setWindowTextW w.hwnd title], w)

/-- `WindowsWindow.quit_app(self, code=0)`:
calls `PostQuitMessage(0)` — note the literal `0`, not `code` — then
`return self`. -/
def WindowsWindow.quit_app (w : WindowsWindow) (code : Nat) :
    List WinCall × WindowsWindow :=
  ([.postQuitMessage 0], w)

/-- The default value of the `code` parameter in `quit_app(self, code=0)`. -/
def WindowsWindow.quitAppDefaultCode : Nat := 0

/-! ## macOS effect model -/

/-- Objective-C object references reachable from `OsxWindow` code. -/
inductive ObjRef where
  /-- `self.hwnd`, the Sciter view handle. -/
  | hwnd (h : Nat)
  /-- The result of sending `window` to `self.hwnd` (the NSWindow). -/
  | windowOf (h : Nat)
  /-- `self.nsApp`, the shared NSApplication instance. -/
  | nsApp
  /-- An NSString handle produced by `ObjC.toNSString`; carries the stored
  characters. -/
  | nsString (s : List Char)
deriving DecidableEq, Repr

/-- Selectors sent via `self.objc(obj, selectorName, ...)` in `OsxWindow`. The
constructor names match the Objective-C selector strings of the source. -/
inductive Sel where
  | window
  | orderOut
  | performMiniaturize
  | activateIgnoringOtherApps
  | makeKeyAndOrderFront
  | performZoom
  | close
  | setTitle
  | title
  | run
  | terminate
deriving DecidableEq, Repr

/-- An argument of an `objc_msgSend` invocation. -/
inductive ObjArg where
  /-- Python `None` (a NULL argument). -/
  | nil
  /-- An object reference argument. -/
  | ref (r : ObjRef)
  /-- A boolean argument (e.g. the `True` of `activateIgnoringOtherApps:`). -/
  | bool (b : Bool)
deriving DecidableEq, Repr

/-- One `objc_msgSend` invocation performed by `OsxWindow`. -/
inductive OsxCall where
  | msgSend (obj : ObjRef) (sel : Sel) (args : List ObjArg)
deriving DecidableEq, Repr

/-- The macOS window object: the native handle `self.hwnd`, the truthiness
of `self.window_flags & SCITER_CREATE_WINDOW_FLAGS.SW_TITLEBAR` tested in
`expand`, and the truthiness of `self.nsApp` tested in `quit_app`. -/
structure OsxWindow where
  hwnd : Nat
  hasTitlebar : Bool
  nsAppIsNull : Bool
deriving DecidableEq, Repr

/-- `OsxWindow._window(self)` with the default `hwnd=None`: sends `window`
to `self.hwnd` and returns the resulting NSWindow reference. -/
def OsxWindow.window_acc (w : OsxWindow) : List OsxCall × ObjRef :=
  ([.msgSend (.hwnd w.hwnd) .window []], .windowOf w.hwnd)

/-- `OsxWindow.collapse(self, hide=False)`: fetches the NSWindow, then sends
`orderOut: None` when `hide` else `performMiniaturize: self.hwnd`;
`return self`. -/
def OsxWindow.collapse (w : OsxWindow) (hide : Bool) :
    List OsxCall × OsxWindow :=
  ((w.window_acc).1 ++
    (if hide then [.msgSend (w.window_acc).2 .orderOut [.nil]]
     else [.msgSend (w.window_acc).2 .performMiniaturize [.ref (.hwnd w.hwnd)]]),
   w)

/-- The default value of the `hide` parameter in `collapse(self, hide=False)`. -/
def OsxWindow.collapseDefaultHide : Bool := false

/-- `OsxWindow.expand(self, maximize=False)`: fetches the NSWindow; when the
title-bar flag is set, sends `activateIgnoringOtherApps: True` to
`self.nsApp`; always sends `makeKeyAndOrderFront: None`; when `maximize`,
sends `performZoom: None`; `return self`. -/
def OsxWindow.expand (w : OsxWindow) (maximize : Bool) :
    List OsxCall × OsxWindow :=
  ((w.window_acc).1 ++
    (if w.hasTitlebar then [.msgSend .nsApp .activateIgnoringOtherApps [.bool true]]
     else []) ++
    [.msgSend (w.window_acc).2 .makeKeyAndOrderFront [.nil]] ++
    (if maximize then [.msgSend (w.window_acc).2 .performZoom [.nil]] else []),
   w)

/-- `OsxWindow.dismiss(self)`: sends `close` to the NSWindow; `return self`. -/
def OsxWindow.dismiss (w : OsxWindow) : List OsxCall × OsxWindow :=
  ((w.window_acc).1 ++ [.msgSend (w.window_acc).2 .close []], w)

/-- `OsxWindow.quit_app(self, code=0)`: when `self.nsApp` is truthy, sends
`terminate: self.nsApp` to it — the `code` argument is never used;
`return self`. -/
def OsxWindow.quit_app (w : OsxWindow) (code : Nat) :
    List OsxCall × OsxWindow :=
  ((if w.nsAppIsNull then []
    else [.msgSend .nsApp .terminate [.ref .nsApp]]),
   w)

/-- `OsxWindow.run_app(self)`: sends `run` to `self.nsApp`, then
`return 0` — the literal zero of the source. -/
def OsxWindow.run_app (w : OsxWindow) : List OsxCall × Nat :=
  ([.msgSend .nsApp .run []], 0)

/-! ## Text marshalling

`ObjC.toNSString` / `ObjC.fromNSString` convert between Python text and
CFString handles through UTF-8; the relevant CoreFoundation behaviour
(UTF-16 length counting, conversion buffer sizing, C-string NUL
truncation) is modelled explicitly. -/

/-- Number of bytes the UTF-8 encoding of one character occupies: what
`CFStringGetCString` must write for it (and what `str.encode` produces). -/
def charUtf8Size (c : Char) : Nat :=
  if c.toNat ≤ 0x7F then 1
  else if c.toNat ≤ 0x7FF then 2
  else if c.toNat ≤ 0xFFFF then 3
  else 4

/-- Total UTF-8 byte count of a text. -/
def utf8Len (s : List Char) : Nat := (s.map charUtf8Size).sum

/-- Number of UTF-16 code units of one character: the unit
`CFStringGetLength` counts. -/
def charUtf16Units (c : Char) : Nat := if c.toNat ≤ 0xFFFF then 1 else 2

/-- OS semantics of `CFStringGetLength`: the UTF-16 code-unit count of the
stored text. -/
def cfStringGetLength (s : List Char) : Nat := (s.map charUtf16Units).sum

/-- The literal placeholder text `<nil>` that `fromNSString` returns for a
null handle. -/
def nilPlaceholder : List Char := "<nil>".data

/-- `ObjC.toNSString(self, string)`: UTF-8-encodes the Python text and
calls `CFStringCreateWithCString`, which consumes the bytes as a
NUL-terminated C string — so the created CFString holds the characters of
the text before its first NUL.  Returns the handle. -/
def toNSString (s : List Char) : ObjRef := .nsString (truncAtNul s)

/-- `ObjC.fromNSString(self, nsString)`.  A falsy (null) handle yields the
literal placeholder.  Otherwise `n = CFStringGetLength(nsString)`, a byte
buffer of `n * 4 + 4` bytes is allocated, and
`CFStringGetCString(nsString, buf, n * 4, kCFStringEncodingUTF8)` is
invoked with the buffer size given as `n * 4`; it succeeds iff the UTF-8
form plus its NUL terminator fits in that size, in which case
`buf.value.decode(utf-8)` yields the bytes before the first NUL, decoded;
on failure the function returns Python `None` (`none` here).  The input
`none` models a null handle; `some s` a handle to a CFString holding `s`. -/
def fromNSString (nsString : Option (List Char)) : Option (List Char) :=
  match nsString with
  | none => some nilPlaceholder
  | some s =>
    if utf8Len s + 1 ≤ cfStringGetLength s * 4 then some (truncAtNul s)
    else none

/-- OS-side window-text state of a Win32 window (the text `user32` stores
for the window handle). -/
structure WinOS where
  text : List Char
deriving DecidableEq, Repr

/-- OS semantics of `SetWindowTextW(hwnd, title)`: the argument is consumed
as a NUL-terminated wide string, so the OS stores the characters before
the first NUL. -/
def setWindowTextW_OS (title : List Char) : WinOS :=
  ⟨truncAtNul title⟩

/-- OS semantics of `GetWindowTextLengthW(hwnd)`: the length, in
characters, of the stored window text. -/
def getWindowTextLengthW_OS (os : WinOS) : Nat := os.text.length

/-- OS semantics of `GetWindowTextW(hwnd, buf, cb)`: copies at most
`cb - 1` characters into the buffer and NUL-terminates it; the text value
of the buffer afterwards is the copied characters. -/
def getWindowTextW_OS (os : WinOS) (cb : Nat) : List Char := os.text.take (cb - 1)

/-- Applies the window-text effect of one Win32 call to the OS state. -/
def applyWinCall (os : WinOS) : WinCall → WinOS
  | .setWindowTextW _ t => setWindowTextW_OS t
  | _ => os

/-- Applies a Win32 call trace to the OS window-text state, in order. -/
def applyWinCalls (os : WinOS) (cs : List WinCall) : WinOS :=
  cs.foldl applyWinCall os

/-- `WindowsWindow.get_title(self)`:
`cb = GetWindowTextLengthW(self.hwnd) + 1`, allocate a unicode buffer of
`cb` characters, `GetWindowTextW(self.hwnd, title, cb)`, return the
buffer — whose text value is modelled here. -/
def WindowsWindow.get_title (os : WinOS) : List Char :=
  getWindowTextW_OS os (getWindowTextLengthW_OS os + 1)

/-- `set_title(s)` followed by `get_title()` on the same Windows window:
the OS applies the emitted `SetWindowTextW` call to its window-text state
and `get_title` then reads that state back. -/
def winTitleRoundTrip (w : WindowsWindow) (os : WinOS) (s : List Char) :
    List Char :=
  WindowsWindow.get_title (applyWinCalls os (w.set_title s).1)

/-- OS-side state of a macOS window: the NSString handle its NSWindow
holds as title (`none` models a null handle). -/
structure OsxOS where
  titleHandle : Option (List Char)
deriving DecidableEq, Repr

/-- `OsxWindow.set_title(self, title)`: sends
`setTitle: self.objc.toNSString(title)` to the NSWindow; `return self`. -/
def OsxWindow.set_title (w : OsxWindow) (title : List Char) :
    List OsxCall × OsxWindow :=
  ((w.window_acc).1 ++
    [.msgSend (w.window_acc).2 .setTitle [.ref (toNSString title)]],
   w)

/-- Applies the title effect of one Objective-C call to the OS state: a
`setTitle:` send with an NSString argument stores that NSString. -/
def applyOsxCall (os : OsxOS) : OsxCall → OsxOS
  | .msgSend _ .setTitle [.ref (.nsString s)] => ⟨some s⟩
  | _ => os

/-- Applies an Objective-C call trace to the OS title state, in order. -/
def applyOsxCalls (os : OsxOS) (cs : List OsxCall) : OsxOS :=
  cs.foldl applyOsxCall os

/-- `OsxWindow.get_title(self)`: sends `title` to the NSWindow and passes
the resulting NSString handle to `self.objc.fromNSString`. -/
def OsxWindow.get_title (w : OsxWindow) (os : OsxOS) :
    List OsxCall × Option (List Char) :=
  ((w.window_acc).1 ++ [.msgSend (w.window_acc).2 .title []],
   fromNSString os.titleHandle)

/-- `set_title(s)` followed by `get_title()` on the same macOS window:
the OS applies the emitted calls to its title state and `get_title` then
reads that state back. -/
def osxTitleRoundTrip (w : OsxWindow) (os : OsxOS) (s : List Char) :
    Option (List Char) :=
  (OsxWindow.get_title w (applyOsxCalls os (w.set_title s).1)).2

/-! ## Window creation -/

/-- The five arguments of one `_api.SciterCreateWindow` invocation, as
forwarded by `_create`.  `rect = none` models a NULL rectangle pointer;
`hasDelegate` records whether a non-null message-delegate callback is
passed; `param` is the fourth argument (always `None` in this module). -/
structure CreateArgs where
  flags : Nat
  rect : Option RECT
  hasDelegate : Bool
  param : Option Nat
  parent : Option Nat
deriving DecidableEq, Repr

/-- `WindowsWindow._create(self, flags, rect, parent)`: when `rect` is
`None` it is replaced by `sciter.sctypes.RECT()` (the zero rectangle); a
`SciterWindowDelegate(self._on_msg_delegate)` is built, stored and passed;
then `return _api.SciterCreateWindow(flags, byref(rect), self._msg_delegate,
None, parent)` — the result is returned unchanged.  `api` stands for the
`SciterCreateWindow` entry point; the function yields the forwarded
arguments together with the unchanged result. -/
def WindowsWindow._create (api : CreateArgs → Nat) (flags : Nat)
    (rect : Option RECT) (parent : Option Nat) : CreateArgs × Nat :=
  let r : RECT := match rect with
    | none => RECT.zero
    | some rc => rc
  let args : CreateArgs := ⟨flags, some r, true, none, parent⟩
  (args, api args)

/-- `OsxWindow._create(self, flags, rect, parent)`:
`wnd = _api.SciterCreateWindow(flags, byref(rect) if rect else None, None,
None, parent); return wnd`.  A ctypes structure is always truthy, so
exactly the `rect is None` case passes a NULL rectangle pointer; no
delegate is passed; the result is returned unchanged. -/
def OsxWindow._create (api : CreateArgs → Nat) (flags : Nat)
    (rect : Option RECT) (parent : Option Nat) : CreateArgs × Nat :=
  let args : CreateArgs := ⟨flags, rect, false, none, parent⟩
  (args, api args)

/-! ## Message loop and delegate trampoline (Windows) -/

/-- The fields of a Win32 `MSG` record that `run_app` reads. -/
structure MSG where
  message : Nat
  wParam : Nat
  lParam : Nat
deriving DecidableEq, Repr

/-- The WM_QUIT message id. -/
def WM_QUIT : Nat := 0x0012

/-- OS semantics of `PostQuitMessage(exitCode)`: a WM_QUIT message with
`wParam = exitCode` is placed in the message queue of the thread. -/
def postQuitMessage_OS (exitCode : Nat) : MSG := ⟨WM_QUIT, exitCode, 0⟩

/-- OS-side translation of the posting calls a trace performs into queued
messages, in order: `PostMessageW` queues its message verbatim and
`PostQuitMessage` queues the WM_QUIT message it generates. -/
def postedMessages : List WinCall → List MSG
  | [] => []
  | .postMessageW _ m wp lp :: rest => ⟨m, wp, lp⟩ :: postedMessages rest
  | .postQuitMessage n :: rest => postQuitMessage_OS n :: postedMessages rest
  | _ :: rest => postedMessages rest

/-- `WindowsWindow.run_app(self)`, run against a message queue:
`while GetMessageW(pmsg, 0, 0, 0) != 0: Translate; Dispatch`, then
`return int(msg.wParam)`.  `GetMessageW` retrieves queued messages in
order and returns zero exactly when the retrieved message is WM_QUIT, at
which point the loop exits and the `wParam` of that retrieved message is
returned.  `GetMessageW` blocks on an exhausted queue, so a queue holding
no WM_QUIT gives no return value (`none`). -/
def WindowsWindow.run_app : List MSG → Option Nat
  | [] => none
  | m :: rest => if m.message = WM_QUIT then some m.wParam else run_app rest

/-- `WindowsWindow.on_message(self, hwnd, msg, wparam, lparam)`: the base
implementation is `pass`, i.e. it returns `None` for every message. -/
def WindowsWindow.on_message (w : WindowsWindow)
    (hwnd msg wparam lparam : Nat) : Option Int :=
  none

/-- `WindowsWindow._on_msg_delegate(self, hwnd, msg, wparam, lparam,
pparam, phandled)`: calls the (user-overridable) handler `on_message`; on
a non-None result sets `phandled.contents = 1` and returns that result;
otherwise leaves `phandled` untouched and returns 0.  `on_message` is the
handler in effect; `phandled0` is the value `phandled.contents` holds on
entry; the result is the pair (final `phandled.contents` as a Bool, value
returned to the OS). -/
def WindowsWindow._on_msg_delegate
    (on_message : Nat → Nat → Nat → Nat → Option Int)
    (hwnd msg wparam lparam : Nat) (phandled0 : Bool) : Bool × Int :=
  match on_message hwnd msg wparam lparam with
  | some rv => (true, rv)
  | none => (phandled0, 0)

/-! ## Claim-side predicates

These definitions follow the words of the spec claims (not the source);
they classify calls so ordering claims can be stated over traces. -/

/-- Whether a Win32 call is a restore/show-normal request: `ShowWindow`
with SW_SHOWNORMAL (1) or SW_RESTORE (9).  Spec wording: the restore
request of restore-then-maximize. -/
def isRestoreShowCall : WinCall → Bool
  | .showWindow _ cmd => cmd == 1 || cmd == 9
  | _ => false

/-- Whether a Win32 call is a maximize request: `ShowWindow` with
SW_MAXIMIZE (3). -/
def isMaximizeShowCall : WinCall → Bool
  | .showWindow _ cmd => cmd == 3
  | _ => false

/-- Whether an Objective-C call is the activate-app send
(`activateIgnoringOtherApps:`). -/
def isActivateSend : OsxCall → Bool
  | .msgSend _ s _ => s == Sel.activateIgnoringOtherApps

/-- Whether an Objective-C call is the raise-window send
(`makeKeyAndOrderFront:`). -/
def isRaiseSend : OsxCall → Bool
  | .msgSend _ s _ => s == Sel.makeKeyAndOrderFront

/-- Whether an Objective-C call is the maximize send (`performZoom:`). -/
def isZoomSend : OsxCall → Bool
  | .msgSend _ s _ => s == Sel.performZoom

/-- `occursBefore p q tr` holds when some call satisfying `p` occurs
strictly before some call satisfying `q` in the trace `tr`. -/
def occursBefore (p q : α → Bool) : List α → Bool
  | [] => false
  | x :: xs => (p x && xs.any q) || occursBefore p q xs

end Scplatform

namespace Scplatform

/-! ## Theorems -/

/-- Claim C2: `collapse(hide=True)` issues exactly the hide request
(`ShowWindow` with SW_HIDE = 0 on Windows; `orderOut:` on macOS) and
`collapse(hide=False)` issues exactly the minimize request (`ShowWindow`
with SW_MINIMIZE = 6 on Windows; `performMiniaturize:` on macOS); the two
are never swapped, and the default argument is `hide=False` on both
variants. -/
theorem C2_collapse_requests (ww : WindowsWindow) (w : OsxWindow) :
    (ww.collapse true).1 = [.showWindow ww.hwnd 0] ∧
    (ww.collapse false).1 = [.showWindow ww.hwnd 6] ∧
    (w.collapse true).1 =
      [.msgSend (.hwnd w.hwnd) .window [], .msgSend (.windowOf w.hwnd) .orderOut [.nil]] ∧
    (w.collapse false).1 =
      [.msgSend (.hwnd w.hwnd) .window [],
       .msgSend (.windowOf w.hwnd) .performMiniaturize [.ref (.hwnd w.hwnd)]] ∧
    WindowsWindow.collapseDefaultHide = false ∧
    OsxWindow.collapseDefaultHide = false := by
  refine ⟨rfl, rfl, rfl, rfl, rfl, rfl⟩

/-- Recognizes a WM_CLOSE post among Win32 calls. -/
def isCloseMsgPost : WinCall → Bool
  | .postMessageW _ msg _ _ => msg == 0x0010
  | _ => false

/-- Recognizes a `close` message send among Objective-C calls. -/
def isCloseSend : OsxCall → Bool
  | .msgSend _ s _ => s == Sel.close

/-- Claim C8: each call to `dismiss()` issues the platform-correct close
request exactly once: on Windows the emitted trace is a single posted
WM_CLOSE (0x0010) message with zero parameters, and on macOS the trace
contains exactly one `close` send, addressed to the NSWindow of the window
(the only other call is the `window` accessor send). -/
theorem C8_dismiss_once (ww : WindowsWindow) (w : OsxWindow) :
    (ww.dismiss).1 = [.postMessageW ww.hwnd 0x0010 0 0] ∧
    ((ww.dismiss).1.filter isCloseMsgPost).length = 1 ∧
    (w.dismiss).1.filter isCloseSend =
      [.msgSend (.windowOf w.hwnd) .close []] ∧
    ((w.dismiss).1.filter isCloseSend).length = 1 := by
  refine ⟨rfl, rfl, rfl, rfl⟩

/-- Claim C10: on both variants, `collapse`, `expand`, `dismiss`, `set_title`
and `quit_app` return the very window instance they were invoked on, for
every argument value. -/
theorem C10_returns_self (ww : WindowsWindow) (w : OsxWindow)
    (hide maximize hide2 maximize2 : Bool) (t : List Char) (code code2 : Nat) :
    (ww.collapse hide).2 = ww ∧
    (ww.expand maximize).2 = ww ∧
    (ww.dismiss).2 = ww ∧
    (ww.set_title t).2 = ww ∧
    (ww.quit_app code).2 = ww ∧
    (w.collapse hide2).2 = w ∧
    (w.expand maximize2).2 = w ∧
    (w.dismiss).2 = w ∧
    (w.set_title t).2 = w ∧
    (w.quit_app code2).2 = w := by
  refine ⟨rfl, rfl, rfl, rfl, rfl, rfl, rfl, rfl, rfl, rfl⟩

/-! ### Text round-trip lemmas -/

/-- A text without NUL characters is its own C-string truncation. -/
theorem truncAtNul_eq_self {s : List Char} (h : nulChar ∉ s) :
    truncAtNul s = s := by
  unfold truncAtNul
  rw [List.takeWhile_eq_self_iff]
  intro x hx
  simp only [ne_eq, decide_eq_true_eq]
  exact fun e => h (e ▸ hx)

/-- Per character, the UTF-8 byte count is at most three times the UTF-16
unit count. -/
theorem charUtf8Size_le (c : Char) :
    charUtf8Size c ≤ 3 * charUtf16Units c := by
  unfold charUtf8Size charUtf16Units
  split_ifs <;> omega

/-- Every character occupies at least one UTF-16 unit. -/
theorem one_le_charUtf16Units (c : Char) : 1 ≤ charUtf16Units c := by
  unfold charUtf16Units
  split_ifs <;> omega

/-- Over a whole text, the UTF-8 byte count is at most three times the
UTF-16 unit count. -/
theorem utf8Len_le (s : List Char) :
    utf8Len s ≤ 3 * cfStringGetLength s := by
  induction s with
  | nil => simp [utf8Len, cfStringGetLength]
  | cons c cs ih =>
    have h1 := charUtf8Size_le c
    simp only [utf8Len, cfStringGetLength, List.map_cons, List.sum_cons] at *
    omega

/-- For a nonempty text, the conversion buffer size `n * 4` that
`fromNSString` passes to `CFStringGetCString` fits the UTF-8 form plus
its NUL terminator. -/
theorem utf8_fits (s : List Char) (h : s ≠ []) :
    utf8Len s + 1 ≤ cfStringGetLength s * 4 := by
  have h1 := utf8Len_le s
  have h2 : 1 ≤ cfStringGetLength s := by
    cases s with
    | nil => exact absurd rfl h
    | cons c cs =>
      have hc := one_le_charUtf16Units c
      simp only [cfStringGetLength, List.map_cons, List.sum_cons]
      omega
  omega

/-- Claim C5 counterexample: on the macOS path the empty title does not
round-trip — `set_title` with the empty string followed by `get_title`
yields Python `None`, because `fromNSString` hands `CFStringGetCString` a
buffer size of `CFStringGetLength * 4 = 0`. -/
theorem C5_roundtrip_counterexample :
    osxTitleRoundTrip ⟨1, false, false⟩ ⟨none⟩ [] = none ∧
    (none : Option (List Char)) ≠ some [] := by
  exact ⟨rfl, by decide⟩

/-- Claim C5, amended: for every title without NUL characters,
`set_title(s)` followed by `get_title()` on the same window returns
exactly `s` on the Windows path; on the macOS path the same holds for
every nonempty such title, while the empty title yields `None` (the
`CFStringGetCString` call is made with buffer size 0 and fails). -/
theorem C5_title_roundtrip (ww : WindowsWindow) (wos : WinOS)
    (w : OsxWindow) (os : OsxOS) (s : List Char) (hnul : nulChar ∉ s) :
    winTitleRoundTrip ww wos s = s ∧
    (s ≠ [] → osxTitleRoundTrip w os s = some s) ∧
    osxTitleRoundTrip w ⟨none⟩ [] = none := by
  have ht := truncAtNul_eq_self hnul
  refine ⟨?_, ?_, rfl⟩
  · simp [winTitleRoundTrip, WindowsWindow.set_title, applyWinCalls,
      applyWinCall, setWindowTextW_OS, WindowsWindow.get_title,
      getWindowTextLengthW_OS, getWindowTextW_OS, ht]
  · intro hne
    have hfit := utf8_fits s hne
    simp [osxTitleRoundTrip, OsxWindow.set_title, OsxWindow.window_acc,
      applyOsxCalls, applyOsxCall, toNSString, OsxWindow.get_title,
      fromNSString, ht, hfit]

/-- Witness for Claim C5 at the multi-byte title `café` on both paths. -/
theorem C5_title_roundtrip_witness :
    winTitleRoundTrip ⟨1⟩ ⟨[]⟩ ['c', 'a', 'f', 'é'] = ['c', 'a', 'f', 'é'] ∧
    osxTitleRoundTrip ⟨2, false, false⟩ ⟨none⟩ ['c', 'a', 'f', 'é'] =
      some ['c', 'a', 'f', 'é'] := by
  have h := C5_title_roundtrip ⟨1⟩ ⟨[]⟩ ⟨2, false, false⟩ ⟨none⟩
    ['c', 'a', 'f', 'é'] (by decide)
  exact ⟨h.1, h.2.1 (by decide)⟩

/-- Claim C7 counterexample: the null handle is not the only input that
produces the placeholder value — a non-null handle to a CFString whose
content is literally `<nil>` makes `fromNSString` return the very same
placeholder text. -/
theorem C7_placeholder_counterexample :
    fromNSString (some nilPlaceholder) = some nilPlaceholder ∧
    (some nilPlaceholder : Option (List Char)) ≠ none := by
  exact ⟨by decide, by decide⟩

/-- Claim C7, amended: `fromNSString` on a null (falsy) handle returns the
fixed literal placeholder `<nil>` rather than failing, and the null
handle is the only input for which the placeholder is substituted rather
than decoded: every non-null handle yields the decoded content of its
CFString (which may incidentally equal `<nil>`) or Python `None`. -/
theorem C7_nil_placeholder :
    fromNSString none = some nilPlaceholder ∧
    ∀ s, fromNSString (some s) = some (truncAtNul s) ∨
      fromNSString (some s) = none := by
  refine ⟨rfl, fun s => ?_⟩
  by_cases h : utf8Len s + 1 ≤ cfStringGetLength s * 4
  · exact Or.inl (by simp [fromNSString, h])
  · exact Or.inr (by simp [fromNSString, h])

/-- Claim C9: for a non-null handle, whenever the `CFStringGetCString`
extraction fails (its success condition — the UTF-8 form plus NUL
terminator fitting the passed buffer size `CFStringGetLength * 4` — does
not hold), `fromNSString` returns Python `None`; when the extraction
succeeds it returns the decoded text. -/
theorem C9_extraction_failure (s : List Char) :
    (¬ utf8Len s + 1 ≤ cfStringGetLength s * 4 →
      fromNSString (some s) = none) ∧
    (utf8Len s + 1 ≤ cfStringGetLength s * 4 →
      fromNSString (some s) = some (truncAtNul s)) := by
  constructor
  · intro hfail
    simp [fromNSString, hfail]
  · intro hok
    simp [fromNSString, hok]

/-- Witness for Claim C9: the empty string fails extraction and yields
`None`; a one-character string succeeds and yields its text. -/
theorem C9_extraction_failure_witness :
    fromNSString (some []) = none ∧
    fromNSString (some ['a']) = some (truncAtNul ['a']) := by
  exact ⟨(C9_extraction_failure []).1 (by decide),
    (C9_extraction_failure ['a']).2 (by decide)⟩

/-! ### Expand ordering -/

/-- Claim C3 counterexample: on the Windows variant, `expand(maximize=True)`
does not issue restore-then-maximize — it issues exactly one call, a
single `ShowWindow` with SW_MAXIMIZE (3), and its trace contains no
restore request (SW_SHOWNORMAL / SW_RESTORE) at all, let alone one
preceding a maximize request. -/
theorem C3_expand_counterexample :
    ((WindowsWindow.mk 5).expand true).1 = [.showWindow 5 3] ∧
    ((WindowsWindow.mk 5).expand true).1.filter isRestoreShowCall = [] ∧
    occursBefore isRestoreShowCall isMaximizeShowCall
      ((WindowsWindow.mk 5).expand true).1 = false := by
  exact ⟨rfl, rfl, rfl⟩

/-- Claim C3, amended: on the Windows variant `expand(maximize=True)`
issues a single maximize request (`ShowWindow` with SW_MAXIMIZE), with no
preceding restore; on the macOS variant, when maximizing, the raise
(`makeKeyAndOrderFront:`) send precedes the maximize (`performZoom:`)
send, and whenever the window carries the title-bar flag, the
activate-app (`activateIgnoringOtherApps:`) send occurs strictly before
the raise send and the raise never precedes the activation. -/
theorem C3_expand_ordering (ww : WindowsWindow) (w : OsxWindow) (m : Bool) :
    ((ww.expand true).1 = [.showWindow ww.hwnd 3]) ∧
    (m = true →
      occursBefore isRaiseSend isZoomSend (w.expand m).1 = true) ∧
    (w.hasTitlebar = true →
      occursBefore isActivateSend isRaiseSend (w.expand m).1 = true ∧
      occursBefore isRaiseSend isActivateSend (w.expand m).1 = false) := by
  obtain ⟨h, tb, nsn⟩ := w
  cases tb <;> cases m <;>
    refine ⟨rfl, fun hm => ?_, fun htb => ?_⟩ <;>
      first
        | rfl
        | exact ⟨rfl, rfl⟩
        | simp at hm
        | simp at htb

/-- Witness for Claim C3 on a maximizing expand of a title-bar window. -/
theorem C3_expand_ordering_witness :
    occursBefore isRaiseSend isZoomSend
      ((OsxWindow.mk 2 true false).expand true).1 = true ∧
    occursBefore isActivateSend isRaiseSend
      ((OsxWindow.mk 2 true false).expand true).1 = true ∧
    occursBefore isRaiseSend isActivateSend
      ((OsxWindow.mk 2 true false).expand true).1 = false := by
  have h := C3_expand_ordering ⟨1⟩ ⟨2, true, false⟩ true
  exact ⟨h.2.1 rfl, (h.2.2 rfl).1, (h.2.2 rfl).2⟩

/-! ### Window creation -/

/-- Claim C6 counterexample: on the macOS variant, when `rect` is absent
(`None`), `_create` does not pass a default/zero rectangle in its place —
it passes a NULL rectangle pointer to the creation entry point. -/
theorem C6_create_counterexample :
    (OsxWindow._create (fun _ => 7) 3 none (some 4)).1.rect = none ∧
    (none : Option RECT) ≠ some RECT.zero := by
  exact ⟨rfl, by decide⟩

/-- Claim C6, amended: `_create` forwards its `flags`, `rect` (when
present) and `parent` arguments unchanged to the single window-creation
entry point and returns its result unchanged; the reserved fourth
argument is always null; a message delegate is passed on the Windows
variant and none on the macOS variant; when `rect` is absent, the Windows
variant substitutes the default zero rectangle, while the macOS variant
passes a NULL rectangle pointer. -/
theorem C6_create_forwarding (api : CreateArgs → Nat) (flags : Nat)
    (rect : Option RECT) (parent : Option Nat) :
    (WindowsWindow._create api flags rect parent).1.flags = flags ∧
    (WindowsWindow._create api flags rect parent).1.parent = parent ∧
    (WindowsWindow._create api flags rect parent).1.hasDelegate = true ∧
    (WindowsWindow._create api flags rect parent).1.param = none ∧
    (WindowsWindow._create api flags rect parent).2 =
      api (WindowsWindow._create api flags rect parent).1 ∧
    (OsxWindow._create api flags rect parent).1 =
      ⟨flags, rect, false, none, parent⟩ ∧
    (OsxWindow._create api flags rect parent).2 =
      api (OsxWindow._create api flags rect parent).1 ∧
    (∀ rc, rect = some rc →
      (WindowsWindow._create api flags rect parent).1.rect = some rc) ∧
    (rect = none →
      (WindowsWindow._create api flags rect parent).1.rect = some RECT.zero) := by
  cases rect with
  | none =>
    exact ⟨rfl, rfl, rfl, rfl, rfl, rfl, rfl,
      fun rc hrc => Option.noConfusion hrc, fun hn => rfl⟩
  | some rc0 =>
    exact ⟨rfl, rfl, rfl, rfl, rfl, rfl, rfl,
      fun rc hrc => by injection hrc with e; subst e; rfl,
      fun hn => Option.noConfusion hn⟩

/-- Witness for Claim C6: a concrete rectangle is forwarded unchanged, and
an absent rectangle becomes the zero rectangle on Windows. -/
theorem C6_create_forwarding_witness :
    (WindowsWindow._create (fun a => a.flags + 10) 3
      (some ⟨1, 2, 3, 4⟩) (some 4)).1.rect = some ⟨1, 2, 3, 4⟩ ∧
    (WindowsWindow._create (fun a => a.flags + 10) 3
      none (some 4)).1.rect = some RECT.zero := by
  have h1 := C6_create_forwarding (fun a => a.flags + 10) 3
    (some ⟨1, 2, 3, 4⟩) (some 4)
  have h2 := C6_create_forwarding (fun a => a.flags + 10) 3 none (some 4)
  exact ⟨h1.2.2.2.2.2.2.2.1 ⟨1, 2, 3, 4⟩ rfl, h2.2.2.2.2.2.2.2.2 rfl⟩

/-! ### Delegate trampoline and message loop -/

/-- Claim C4: for every message delivered to the Windows delegate
trampoline, if the handler in effect returns a non-absent value `V` the
trampoline sets the handled output parameter to true and returns `V`; if
the handler returns absent (`None`), the handled output parameter is left
at its entry value — never set to true by the trampoline — and 0 is
returned. -/
theorem C4_delegate_trampoline (f : Nat → Nat → Nat → Nat → Option Int)
    (hwnd msg wparam lparam : Nat) (p : Bool) :
    (∀ v, f hwnd msg wparam lparam = some v →
      WindowsWindow._on_msg_delegate f hwnd msg wparam lparam p = (true, v)) ∧
    (f hwnd msg wparam lparam = none →
      WindowsWindow._on_msg_delegate f hwnd msg wparam lparam p = (p, 0)) := by
  constructor
  · intro v hv
    simp [WindowsWindow._on_msg_delegate, hv]
  · intro hv
    simp [WindowsWindow._on_msg_delegate, hv]

/-- Witness for Claim C4 at a handler returning 7 and a handler returning
`None`, both entered with the handled flag unset. -/
theorem C4_delegate_trampoline_witness :
    WindowsWindow._on_msg_delegate (fun _ _ _ _ => some 7) 1 2 3 4 false =
      (true, 7) ∧
    WindowsWindow._on_msg_delegate (fun _ _ _ _ => none) 1 2 3 4 false =
      (false, 0) := by
  exact ⟨(C4_delegate_trampoline (fun _ _ _ _ => some 7) 1 2 3 4 false).1 7 rfl,
    (C4_delegate_trampoline (fun _ _ _ _ => none) 1 2 3 4 false).2 rfl⟩

/-- Claim C1, evaluated at the failing input `quit_app(5)`: the Windows
`quit_app` calls `PostQuitMessage(0)` regardless of its `code` argument,
so the subsequent `run_app` loop retrieves a WM_QUIT whose `wParam` is 0
and returns 0, not the supplied 5; the macOS `run_app` likewise returns
the literal 0.  This contradicts the claim that the value returned equals
the code supplied to `quit_app`. -/
theorem C1_quit_code_dropped :
    ((WindowsWindow.mk 1).quit_app 5).1 = [.postQuitMessage 0] ∧
    WindowsWindow.run_app
      (postedMessages ((WindowsWindow.mk 1).quit_app 5).1) = some 0 ∧
    (some 0 : Option Nat) ≠ some 5 ∧
    ((OsxWindow.mk 1 false false).run_app).2 = 0 := by
  exact ⟨rfl, rfl, by decide, rfl⟩

end Scplatform
